import Mathlib

/-! tims: account-security flows

A shallow embedding of three source files of the repository:

* `backend/controllers/user.controller.js` (`changePassword`),
* `src/components/Settings/TwoFactorModal.jsx` (the 2FA enrollment modal),
* `src/components/Settings/ActiveSessionsModal.jsx` (the session list modal).

Asynchronous handlers are written as pure functions that thread the state
explicitly and return the list of external calls or UI effects they perform.
-/

namespace Tims

/-! ## JavaScript values used by the handlers -/

/-- A JavaScript string: its sequence of UTF-16 code units, so that
`List.length` is the `.length` property. -/
abbrev JsString := List Nat

/-- The code units of a literal made of BMP characters. -/
def js (s : String) : JsString := s.toList.map Char.toNat

/-- JavaScript truthiness of a body field that is a string or missing
(`undefined`): only a non-empty string is truthy. -/
def truthy : Option JsString → Bool
  | none => false
  | some s => !s.isEmpty

/-- The string held by a field already known to be present. -/
def str (v : Option JsString) : JsString := v.getD []

/-! ## Backend: `changePassword` -/

namespace Backend

/-- A `User` document; `password` is the stored hash. -/
structure User where
  id : Nat
  name : String
  password : JsString
deriving DecidableEq, Repr

/-- Modelled from the spec: a Session record of the SessionRegistry (§3), which
has no counterpart in `user.controller.js`; it is carried in the state only to
observe that the controller leaves it alone. -/
structure Session where
  sid : Nat
  userId : Nat
deriving DecidableEq, Repr

/-- The persistent state a request can observe: the `User` collection and the
session records. -/
structure World where
  users : List User
  sessions : List Session
deriving DecidableEq, Repr

/-- The fields `changePassword` destructures from `req.body`. -/
structure Body where
  currentPassword : Option JsString
  newPassword : Option JsString
  confirmPassword : Option JsString
deriving DecidableEq, Repr

/-- The part of the Express request the handler reads: `req.user.id` and
`req.body`. -/
structure Req where
  userId : Nat
  body : Body
deriving DecidableEq, Repr

/-- How the handler ends: `res.status(code).json(body)` or `next(error)`. -/
inductive Outcome where
  | json (code : Nat) (body : List (String × String))
  | next (error : String)
deriving DecidableEq, Repr

/-- The calls the handler makes to its collaborators, in order. -/
inductive Call where
  | findById (id : Nat)
  | matchPassword (user : User) (entered : JsString)
  | genSalt (rounds : Nat)
  | hash (data : JsString) (salt : JsString)
  | save (doc : User)
deriving DecidableEq, Repr

/-- The collaborators that are not part of the controller file: the Mongoose
`User` model (`findById(..).select('+password')`, `matchPassword`, `save`) and
`bcryptjs` (`genSalt`, `hash`).  Each may throw, which the handler forwards to
`next`.  `save` acts on the `User` collection. -/
structure Deps where
  findById : List User → Nat → Except String (Option User)
  matchPassword : User → JsString → Except String Bool
  genSalt : Nat → Except String JsString
  hash : JsString → JsString → Except String JsString
  save : List User → User → Except String (List User)

/-- The result of running the handler once. -/
structure Run where
  outcome : Outcome
  world : World
  calls : List Call

/-- The body `{ status: 'error', message }`. -/
def errorBody (message : String) : List (String × String) :=
  [("status", "error"), ("message", message)]

/-- The handler `changePassword` of `user.controller.js`. -/
def changePassword (d : Deps) (w : World) (req : Req) : Run :=
  let currentPassword := req.body.currentPassword
  let newPassword := req.body.newPassword
  let confirmPassword := req.body.confirmPassword
  if !truthy currentPassword || !truthy newPassword || !truthy confirmPassword then
    ⟨.json 400 (errorBody "Please provide all required fields"), w, []⟩
  else if newPassword ≠ confirmPassword then
    ⟨.json 400 (errorBody "New passwords do not match"), w, []⟩
  else if (str newPassword).length < 6 then
    ⟨.json 400 (errorBody "Password must be at least 6 characters long"), w, []⟩
  else
    match d.findById w.users req.userId with
    | .error e => ⟨.next e, w, [.findById req.userId]⟩
    | .ok none => ⟨.json 404 (errorBody "User not found"), w, [.findById req.userId]⟩
    | .ok (some user) =>
      match d.matchPassword user (str currentPassword) with
      | .error e =>
        ⟨.next e, w, [.findById req.userId, .matchPassword user (str currentPassword)]⟩
      | .ok false =>
        ⟨.json 401 (errorBody "Current password is incorrect"), w,
          [.findById req.userId, .matchPassword user (str currentPassword)]⟩
      | .ok true =>
        match d.genSalt 10 with
        | .error e =>
          ⟨.next e, w,
            [.findById req.userId, .matchPassword user (str currentPassword), .genSalt 10]⟩
        | .ok salt =>
          match d.hash (str newPassword) salt with
          | .error e =>
            ⟨.next e, w,
              [.findById req.userId, .matchPassword user (str currentPassword), .genSalt 10,
                .hash (str newPassword) salt]⟩
          | .ok hashed =>
            let updated := { user with password := hashed }
            match d.save w.users updated with
            | .error e =>
              ⟨.next e, w,
                [.findById req.userId, .matchPassword user (str currentPassword), .genSalt 10,
                  .hash (str newPassword) salt, .save updated]⟩
            | .ok users =>
              ⟨.json 200
                  [("status", "success"), ("message", "Password changed successfully")],
                { w with users := users },
                [.findById req.userId, .matchPassword user (str currentPassword), .genSalt 10,
                  .hash (str newPassword) salt, .save updated]⟩

/-- The response `{ status: 'success', message: 'Password changed successfully' }`
with HTTP 200. -/
def successResponse : Outcome :=
  .json 200 [("status", "success"), ("message", "Password changed successfully")]

/-- The request passes the three validation checks of the handler. -/
def Valid (req : Req) : Prop :=
  truthy req.body.currentPassword = true ∧ truthy req.body.newPassword = true ∧
    truthy req.body.confirmPassword = true ∧
    req.body.newPassword = req.body.confirmPassword ∧ 6 ≤ (str req.body.newPassword).length

instance (req : Req) : Decidable (Valid req) := by
  unfold Valid; infer_instance

/-- An in-memory stand-in for the collaborators, used to run the handler on
concrete requests: lookup and replacement by `id`, and a toy salted hash
`salt ++ "$" ++ shifted data`. -/
def sampleDeps : Deps where
  findById users id := .ok (users.find? fun u => u.id == id)
  matchPassword user entered :=
    .ok (user.password.dropWhile (fun c => c != 36) == 36 :: entered.map (· + 1))
  genSalt rounds := .ok [115, 97, 108, 116, rounds]
  hash data salt := .ok (salt ++ 36 :: data.map (· + 1))
  save users doc := .ok (users.map fun u => if u.id == doc.id then doc else u)

/-- A sample account (id 1) whose stored hash is the toy hash of `"correctOld"`. -/
def sampleAccount : User :=
  ⟨1, "acc", [115, 97, 108, 116, 10] ++ 36 :: (js "correctOld").map (· + 1)⟩

/-- The sample account next to an unrelated one. -/
def sampleUsers : List User :=
  [sampleAccount, ⟨2, "other", [115, 97, 108, 116, 10] ++ 36 :: (js "hunter22").map (· + 1)⟩]

/-- A sample state: two live sessions of account 1 and one of account 2. -/
def sampleWorld : World :=
  ⟨sampleUsers, [⟨10, 1⟩, ⟨11, 1⟩, ⟨20, 2⟩]⟩

/-- The request `rotatePassword(acc, current, new, confirm)` for account 1. -/
def sampleReq (current new confirm : String) : Req :=
  ⟨1, ⟨some (js current), some (js new), some (js confirm)⟩⟩

end Backend

/-! ## Frontend: `TwoFactorModal` -/

namespace TwoFactor

/-- What the component does to the outside: toasts, the `onToggle` and
`onClose` props, and the three `userService` mutations. -/
inductive Effect where
  | toastError (msg : String)
  | toastSuccess (msg : String)
  | onToggle (enabled : Bool)
  | onClose
  | enable2FA
  | verify2FA (code : JsString)
  | disable2FA
deriving DecidableEq, Repr

/-- The props `isOpen`, `isEnabled` as last passed by the parent, the three
`useState` cells, and `isLoading` of the three mutations, for one mounted
instance of the component. -/
structure State where
  isOpen : Bool
  isEnabled : Bool
  step : Nat
  method : String
  verificationCode : JsString
  enableLoading : Bool
  verifyLoading : Bool
  disableLoading : Bool
deriving DecidableEq, Repr

/-- The state at mount: `useState(1)`, `useState('app')`, `useState('')`, no
mutation running. -/
def init (isOpen isEnabled : Bool) : State :=
  ⟨isOpen, isEnabled, 1, "app", [], false, false, false⟩

/-- The hooks one render calls, in order: the three `useState`, then, past the
early return `if (!isOpen) return null`, the three `useMutation`. -/
def hooksOf (isOpen : Bool) : List String :=
  ["useState", "useState", "useState"] ++
    if isOpen then ["useMutation", "useMutation", "useMutation"] else []

/-- What can happen to a mounted instance: clicks on its buttons and inputs, a
mutation settling (`true` for `onSuccess`, `false` for `onError`), and the
parent rendering it again with props. -/
inductive Event where
  | clickPrimary
  | clickCancel
  | clickDisable
  | chooseMethod (value : String)
  | typeCode (value : JsString)
  | enableSettled (ok : Bool)
  | verifySettled (ok : Bool)
  | disableSettled (ok : Bool)
  | parentProps (isOpen isEnabled : Bool)
deriving DecidableEq, Repr

/-- The function `handleEnable`. -/
def handleEnable (s : State) : State × List Effect :=
  if s.step = 1 then
    ({ s with step := 2 }, [])
  else if s.step = 2 then
    ({ s with enableLoading := true }, [.enable2FA])
  else if s.step = 3 then
    ({ s with verifyLoading := true }, [.verify2FA s.verificationCode])
  else
    ({ s with step := 1, verificationCode := [] },
      [.toastSuccess "Two-factor authentication enabled successfully", .onToggle true, .onClose])

/-- The function `handleDisable`. -/
def handleDisable (s : State) : State × List Effect :=
  ({ s with disableLoading := true }, [.disable2FA])

/-- The `disabled` attribute of the primary button. -/
def primaryDisabled (s : State) : Bool :=
  (s.step == 3 && s.verificationCode.length != 6) || s.enableLoading || s.verifyLoading

/-- The enrollment branch of the render (`isOpen` and not `isEnabled`): the
step panels, Cancel and the primary button. -/
def enrollVisible (s : State) : Bool := s.isOpen && !s.isEnabled

/-- One reaction of a mounted instance.  A control only reacts when it is
rendered and not disabled; a mutation callback only runs for a mutation in
flight.  A render with new props completes only when it calls the hooks of the
render before, that is with the same `isOpen`; otherwise React throws and the
instance gets no new state here (`live` has what becomes of it). -/
def react (s : State) : Event → State × List Effect
  | .clickPrimary =>
    if enrollVisible s && !primaryDisabled s then handleEnable s else (s, [])
  | .clickCancel =>
    if s.isOpen then (s, [.onClose]) else (s, [])
  | .clickDisable =>
    if s.isOpen && s.isEnabled && !s.disableLoading then handleDisable s else (s, [])
  | .chooseMethod value =>
    if enrollVisible s && s.step == 1 then ({ s with method := value }, []) else (s, [])
  | .typeCode value =>
    if enrollVisible s && s.step == 3 then ({ s with verificationCode := value }, [])
    else (s, [])
  | .enableSettled ok =>
    if s.enableLoading then
      if ok then ({ s with enableLoading := false, step := 3 }, [])
      else ({ s with enableLoading := false }, [.toastError "Failed to enable 2FA"])
    else (s, [])
  | .verifySettled ok =>
    if s.verifyLoading then
      if ok then ({ s with verifyLoading := false, step := 4 }, [])
      else ({ s with verifyLoading := false }, [.toastError "Invalid verification code"])
    else (s, [])
  | .disableSettled ok =>
    if s.disableLoading then
      if ok then
        ({ s with disableLoading := false },
          [.toastSuccess "Two-factor authentication disabled", .onToggle false, .onClose])
      else ({ s with disableLoading := false }, [.toastError "Failed to disable 2FA"])
    else (s, [])
  | .parentProps isOpen isEnabled =>
    if hooksOf isOpen = hooksOf s.isOpen then ({ s with isEnabled := isEnabled }, [])
    else (s, [])

/-- The state after a sequence of events, with all effects in order. -/
def run (s : State) : List Event → State × List Effect
  | [] => (s, [])
  | e :: es =>
    let r := react s e
    let rest := run r.1 es
    (rest.1, r.2 ++ rest.2)

/-- Submitting the typed code and having it rejected, `n` times in a row. -/
def invalidSubmissions : Nat → List Event
  | 0 => []
  | n + 1 => .clickPrimary :: .verifySettled false :: invalidSubmissions n

/-- The events that bring a freshly opened modal to step 3 with the code
`"000000"` typed. -/
def toVerification : List Event :=
  [.clickPrimary, .clickPrimary, .enableSettled true, .typeCode (js "000000")]

/-- The bookkeeping that holds in every state the component can reach: `step`
is one of the four steps, the enable mutation is only in flight at step 2 and
the verify mutation only at step 3. -/
def Coherent (s : State) : Prop :=
  (s.step = 1 ∨ s.step = 2 ∨ s.step = 3 ∨ s.step = 4) ∧
    (s.enableLoading = true → s.step = 2) ∧ (s.verifyLoading = true → s.step = 3)

/-- The state reached from a fresh mount (step 1) by a sequence of events. -/
def reached (isOpen isEnabled : Bool) (evs : List Event) : State :=
  (run (init isOpen isEnabled) evs).1

/-- What can happen at the place of the modal in its parent: the parent mounts
an instance, unmounts it, or something happens to the mounted instance. -/
inductive Life where
  | mount (isOpen isEnabled : Bool)
  | unmount
  | event (e : Event)
deriving DecidableEq, Repr

/-- The ways the parent can close an open modal: unmount it, or render it
again with `isOpen = false`. -/
def closes : Life → Bool
  | .unmount => true
  | .event (.parentProps false _) => true
  | _ => false

/-- The instance at the place of the modal, `none` when there is none.  A mount
starts from `init`; an unmount discards the instance with its `useState`
cells; a render of the mounted instance that calls other hooks than the render
before (a changed `isOpen`, see `hooksOf`) throws, which tears the instance
down; every other event is a reaction of the instance. -/
def live : Option State → Life → Option State × List Effect
  | none, .mount isOpen isEnabled => (some (init isOpen isEnabled), [])
  | none, _ => (none, [])
  | some s, .mount _ _ => (some s, [])
  | some _, .unmount => (none, [])
  | some s, .event (.parentProps isOpen isEnabled) =>
    if hooksOf isOpen = hooksOf s.isOpen then
      (some (react s (.parentProps isOpen isEnabled)).1, [])
    else (none, [])
  | some s, .event e => (some (react s e).1, (react s e).2)

/-- The instance after a sequence of happenings, with all effects in order. -/
def liveRun (slot : Option State) : List Life → Option State × List Effect
  | [] => (slot, [])
  | l :: ls =>
    let r := live slot l
    let rest := liveRun r.1 ls
    (rest.1, r.2 ++ rest.2)

end TwoFactor

/-! ## Frontend: `ActiveSessionsModal` -/

namespace Sessions

/-- A session `id`: a number (as in the mock data) or a string. -/
inductive JsId where
  | num (n : Nat)
  | text (s : String)
deriving DecidableEq, Repr

/-- A session object as rendered; `current` is the truthiness of
`session.current`; `icon` is the element type the row hands to
`<IconComponent/>` (named here by a string), `none` when the object has no
`icon`. -/
structure Session where
  id : JsId
  device : String
  browser : String
  ip : String
  location : String
  lastActive : String
  current : Bool
  icon : Option String
deriving DecidableEq, Repr

/-- The constant `mockSessions`. -/
def mockSessions : List Session :=
  [ ⟨.num 1, "Windows PC", "Chrome 120.0", "192.168.1.100", "New York, NY, USA",
      "2 minutes ago", true, some "ComputerDesktopIcon"⟩,
    ⟨.num 2, "iPhone 15", "Safari 17.0", "192.168.1.101", "New York, NY, USA",
      "1 hour ago", false, some "DevicePhoneMobileIcon"⟩,
    ⟨.num 3, "MacBook Pro", "Chrome 120.0", "10.0.0.50", "Boston, MA, USA",
      "2 days ago", false, some "ComputerDesktopIcon"⟩ ]

/-- The destructuring `data: sessions = []` of the query result. -/
def sessionsOf (data : Option (List Session)) : List Session := data.getD []

/-- The constant `displaySessions`. -/
def displaySessions (sessions : List Session) : List Session :=
  if sessions.length > 0 then sessions else mockSessions

/-- The mutations the modal can start. -/
inductive Effect where
  | terminateSession (sessionId : JsId)
  | terminateAllSessions
deriving DecidableEq, Repr

/-- The function `handleTerminateSession`; `confirmed` is the answer of
`window.confirm`. -/
def handleTerminateSession (confirmed : Bool) (sessionId : JsId) : List Effect :=
  if confirmed then [.terminateSession sessionId] else []

/-- The function `handleTerminateAll`. -/
def handleTerminateAll (confirmed : Bool) : List Effect :=
  if confirmed then [.terminateAllSessions] else []

/-- The guard around the Logout button of a row. -/
def hasLogout (session : Session) : Bool := !session.current

/-- The props and query/mutation state the render reads. -/
structure View where
  isOpen : Bool
  isLoading : Bool
  data : Option (List Session)
  terminateLoading : Bool
deriving DecidableEq, Repr

/-- What one render of the modal puts on the screen: nothing (`return null`),
the spinner, the rows, or nothing at all because the render threw. -/
inductive Screen where
  | nothing
  | spinner
  | list (rows : List Session)
  | renderError
deriving DecidableEq, Repr

/-- A row can be rendered: `<IconComponent/>` needs an element type, and React
throws on `undefined`. -/
def renderable (session : Session) : Bool := session.icon.isSome

/-- The render of the modal: `null` when closed, the spinner while loading,
else the map over `displaySessions`, which throws when a row is not
renderable. -/
def render (v : View) : Screen :=
  if !v.isOpen then .nothing
  else if v.isLoading then .spinner
  else if (displaySessions (sessionsOf v.data)).all renderable then
    .list (displaySessions (sessionsOf v.data))
  else .renderError

/-- The rows on the screen. -/
def View.rows (v : View) : List Session :=
  match render v with
  | .list rows => rows
  | _ => []

/-- A click on the Logout button of row `i` on the screen, answered by
`confirmed` in the confirmation dialog.  Nothing happens when there is no such
row, or the row has no button, or the button is disabled. -/
def clickLogout (v : View) (i : Nat) (confirmed : Bool) : List Effect :=
  match v.rows[i]? with
  | some session =>
    if hasLogout session && !v.terminateLoading then
      handleTerminateSession confirmed session.id
    else []
  | none => []

/-- A modal that is open and idle, with the query result `data`. -/
def openView (data : Option (List Session)) : View := ⟨true, false, data, false⟩

/-- A server list of one session whose object has no `icon`. -/
def plainRows : List Session :=
  [ ⟨.text "s-1", "Windows PC", "Chrome 120.0", "192.168.1.100", "New York, NY, USA",
      "2 minutes ago", true, none⟩ ]

/-- A server list of two sessions whose objects carry an `icon`. -/
def iconRows : List Session :=
  [ ⟨.text "s-1", "Windows PC", "Chrome 120.0", "192.168.1.100", "New York, NY, USA",
      "2 minutes ago", true, some "ComputerDesktopIcon"⟩,
    ⟨.text "s-2", "iPhone 15", "Safari 17.0", "192.168.1.101", "New York, NY, USA",
      "1 hour ago", false, some "DevicePhoneMobileIcon"⟩ ]

end Sessions

end Tims

/-! ## Theorems about `changePassword` -/

namespace Tims.Backend

/-- A request that passes validation reaches the account lookup. -/
theorem changePassword_of_valid (d : Deps) (w : World) (req : Req) (hv : Valid req) :
    changePassword d w req =
      match d.findById w.users req.userId with
      | .error e => ⟨.next e, w, [.findById req.userId]⟩
      | .ok none => ⟨.json 404 (errorBody "User not found"), w, [.findById req.userId]⟩
      | .ok (some user) =>
        match d.matchPassword user (str req.body.currentPassword) with
        | .error e =>
          ⟨.next e, w,
            [.findById req.userId, .matchPassword user (str req.body.currentPassword)]⟩
        | .ok false =>
          ⟨.json 401 (errorBody "Current password is incorrect"), w,
            [.findById req.userId, .matchPassword user (str req.body.currentPassword)]⟩
        | .ok true =>
          match d.genSalt 10 with
          | .error e =>
            ⟨.next e, w,
              [.findById req.userId, .matchPassword user (str req.body.currentPassword),
                .genSalt 10]⟩
          | .ok salt =>
            match d.hash (str req.body.newPassword) salt with
            | .error e =>
              ⟨.next e, w,
                [.findById req.userId, .matchPassword user (str req.body.currentPassword),
                  .genSalt 10, .hash (str req.body.newPassword) salt]⟩
            | .ok hashed =>
              match d.save w.users { user with password := hashed } with
              | .error e =>
                ⟨.next e, w,
                  [.findById req.userId,
                    .matchPassword user (str req.body.currentPassword),
                    .genSalt 10, .hash (str req.body.newPassword) salt,
                    .save { user with password := hashed }]⟩
              | .ok users =>
                ⟨successResponse, { w with users := users },
                  [.findById req.userId,
                    .matchPassword user (str req.body.currentPassword),
                    .genSalt 10, .hash (str req.body.newPassword) salt,
                    .save { user with password := hashed }]⟩ := by
  obtain ⟨h1, h2, h3, h4, h5⟩ := hv
  simp [changePassword, h1, h2, h3, h4, Nat.not_lt.mpr (h4 ▸ h5), successResponse]

/-- A request that fails validation is answered before any collaborator is
called. -/
theorem changePassword_of_invalid (d : Deps) (w : World) (req : Req) (hv : ¬ Valid req) :
    ∃ msg, changePassword d w req = ⟨.json 400 (errorBody msg), w, []⟩ := by
  unfold changePassword
  simp only []
  split
  · exact ⟨_, rfl⟩
  · split
    · exact ⟨_, rfl⟩
    · split
      · exact ⟨_, rfl⟩
      · rename_i h1 h2 h3
        exfalso
        apply hv
        simp only [Bool.or_eq_true, Bool.not_eq_true', not_or, Bool.not_eq_false] at h1
        simp only [ne_eq, Decidable.not_not] at h2
        exact ⟨h1.1.1, h1.1.2, h1.2, h2, Nat.le_of_not_lt h3⟩

/-- C1: when a field of the request is empty or missing, or `newPassword`
differs from `confirmPassword`, or `newPassword` is shorter than 6, the handler
answers HTTP 400 with `status: 'error'`, and it has called no collaborator by
then: the account is not looked up and nothing is changed. -/
theorem changePassword_validation_error (d : Deps) (w : World) (req : Req)
    (h : truthy req.body.currentPassword = false ∨ truthy req.body.newPassword = false ∨
      truthy req.body.confirmPassword = false ∨
      req.body.newPassword ≠ req.body.confirmPassword ∨
      (str req.body.newPassword).length < 6) :
    (∃ msg, (changePassword d w req).outcome =
        .json 400 [("status", "error"), ("message", msg)]) ∧
      (changePassword d w req).calls = [] ∧ (changePassword d w req).world = w := by
  have hv : ¬ Valid req := by
    rintro ⟨h1, h2, h3, h4, h5⟩
    rcases h with h | h | h | h | h
    · simp [h1] at h
    · simp [h2] at h
    · simp [h3] at h
    · exact h h4
    · omega
  obtain ⟨msg, hm⟩ := changePassword_of_invalid d w req hv
  rw [hm]
  exact ⟨⟨msg, rfl⟩, rfl, rfl⟩

/-- The scenario of C1 on a sample request: `"short"` is too short. -/
theorem changePassword_validation_error_witness :
    (∃ msg, (changePassword sampleDeps sampleWorld
        (sampleReq "correctOld" "short" "short")).outcome =
        .json 400 [("status", "error"), ("message", msg)]) ∧
      (changePassword sampleDeps sampleWorld (sampleReq "correctOld" "short" "short")).calls
        = [] ∧
      (changePassword sampleDeps sampleWorld (sampleReq "correctOld" "short" "short")).world
        = sampleWorld :=
  changePassword_validation_error sampleDeps sampleWorld (sampleReq "correctOld" "short" "short")
    (by decide)

/-- C2: for a request that passes validation and whose account exists, a
`matchPassword` that answers `false` makes the handler answer HTTP 401 with
`status: 'error'`, which is neither the success response nor a 400 or 404. -/
theorem changePassword_wrong_current (d : Deps) (w : World) (req : Req) (user : User)
    (hv : Valid req) (hfind : d.findById w.users req.userId = .ok (some user))
    (hmatch : d.matchPassword user (str req.body.currentPassword) = .ok false) :
    (changePassword d w req).outcome =
        .json 401 [("status", "error"), ("message", "Current password is incorrect")] ∧
      (changePassword d w req).outcome ≠ successResponse ∧
      (∀ body, (changePassword d w req).outcome ≠ .json 400 body) ∧
      (∀ body, (changePassword d w req).outcome ≠ .json 404 body) := by
  rw [changePassword_of_valid d w req hv, hfind]
  simp only [hmatch]
  refine ⟨rfl, ?_, ?_, ?_⟩
  · simp [successResponse]
  · intro body; simp
  · intro body; simp

/-- The scenario of C2 on a sample request with a wrong current password. -/
theorem changePassword_wrong_current_witness :
    (changePassword sampleDeps sampleWorld
        (sampleReq "wrongOld" "newpass1" "newpass1")).outcome =
        .json 401 [("status", "error"), ("message", "Current password is incorrect")] ∧
      (changePassword sampleDeps sampleWorld
        (sampleReq "wrongOld" "newpass1" "newpass1")).outcome ≠ successResponse ∧
      (∀ body, (changePassword sampleDeps sampleWorld
        (sampleReq "wrongOld" "newpass1" "newpass1")).outcome ≠ .json 400 body) ∧
      (∀ body, (changePassword sampleDeps sampleWorld
        (sampleReq "wrongOld" "newpass1" "newpass1")).outcome ≠ .json 404 body) :=
  changePassword_wrong_current sampleDeps sampleWorld
    (sampleReq "wrongOld" "newpass1" "newpass1") sampleAccount (by decide) rfl rfl

/-- The session records are the same after every run of the handler. -/
theorem changePassword_sessions (d : Deps) (w : World) (req : Req) :
    (changePassword d w req).world.sessions = w.sessions := by
  by_cases hv : Valid req
  · rw [changePassword_of_valid d w req hv]
    repeat' split
    all_goals rfl
  · obtain ⟨msg, hm⟩ := changePassword_of_invalid d w req hv
    rw [hm]

/-- C3: when the handler answers with an error response (400 validation error,
404 account not found, 401 wrong current password), nothing was mutated: the
state, and with it every stored password hash and every session record, is the
one before the request, and `user.save` was not called. -/
theorem changePassword_error_no_mutation (d : Deps) (w : World) (req : Req)
    (code : Nat) (body : List (String × String))
    (hout : (changePassword d w req).outcome = .json code body) (hcode : code ≠ 200) :
    (changePassword d w req).world = w ∧
      (changePassword d w req).world.users = w.users ∧
      (changePassword d w req).world.sessions = w.sessions ∧
      ∀ doc, Call.save doc ∉ (changePassword d w req).calls := by
  by_cases hv : Valid req
  · rw [changePassword_of_valid d w req hv] at hout ⊢
    revert hout
    repeat' split
    all_goals intro hout
    all_goals first
      | (simp only [successResponse, Outcome.json.injEq] at hout; exact absurd hout.1.symm hcode)
      | (simp at hout; done)
      | simp
  · obtain ⟨msg, hm⟩ := changePassword_of_invalid d w req hv
    rw [hm]
    simp

/-- The scenarios of C3 on a sample request with a wrong current password. -/
theorem changePassword_error_no_mutation_witness :
    (changePassword sampleDeps sampleWorld
        (sampleReq "wrongOld" "newpass1" "newpass1")).world = sampleWorld ∧
      (changePassword sampleDeps sampleWorld
        (sampleReq "wrongOld" "newpass1" "newpass1")).world.users = sampleWorld.users ∧
      (changePassword sampleDeps sampleWorld
        (sampleReq "wrongOld" "newpass1" "newpass1")).world.sessions = sampleWorld.sessions ∧
      ∀ doc, Call.save doc ∉ (changePassword sampleDeps sampleWorld
        (sampleReq "wrongOld" "newpass1" "newpass1")).calls :=
  changePassword_error_no_mutation sampleDeps sampleWorld
    (sampleReq "wrongOld" "newpass1" "newpass1") 401
    [("status", "error"), ("message", "Current password is incorrect")] (by decide) (by decide)

/-- C4: for a request that passes validation, with an existing account and a
matching current password, the handler asks `bcryptjs` for a new salt
(`genSalt(10)`), hashes `newPassword` with it, saves the account document with
that hash as its `password` (the document passed to `save` carries the output
of `hash`, not `newPassword` itself), and answers HTTP 200 with only `status`
and `message` in the body. -/
theorem changePassword_success (d : Deps) (w : World) (req : Req) (user : User)
    (salt hashed : JsString) (users : List User)
    (hv : Valid req) (hfind : d.findById w.users req.userId = .ok (some user))
    (hmatch : d.matchPassword user (str req.body.currentPassword) = .ok true)
    (hsalt : d.genSalt 10 = .ok salt)
    (hhash : d.hash (str req.body.newPassword) salt = .ok hashed)
    (hsave : d.save w.users { user with password := hashed } = .ok users) :
    (changePassword d w req).outcome =
        .json 200 [("status", "success"), ("message", "Password changed successfully")] ∧
      (changePassword d w req).calls =
        [.findById req.userId, .matchPassword user (str req.body.currentPassword),
          .genSalt 10, .hash (str req.body.newPassword) salt,
          .save { id := user.id, name := user.name, password := hashed }] ∧
      (∀ doc, Call.save doc ∈ (changePassword d w req).calls →
        doc.id = user.id ∧ doc.password = hashed) ∧
      (changePassword d w req).world = { users := users, sessions := w.sessions } := by
  rw [changePassword_of_valid d w req hv, hfind]
  simp [hmatch, hsalt, hhash, hsave, successResponse]

/-- The scenario of C4 on a sample request: the stored password of account 1
becomes the toy hash of `"newpass1"`. -/
theorem changePassword_success_witness :
    (changePassword sampleDeps sampleWorld
        (sampleReq "correctOld" "newpass1" "newpass1")).outcome =
        .json 200 [("status", "success"), ("message", "Password changed successfully")] ∧
      (changePassword sampleDeps sampleWorld
        (sampleReq "correctOld" "newpass1" "newpass1")).calls =
        [.findById 1, .matchPassword sampleAccount (js "correctOld"),
          .genSalt 10, .hash (js "newpass1") [115, 97, 108, 116, 10],
          .save { id := 1, name := "acc",
                  password := [115, 97, 108, 116, 10] ++ 36 :: (js "newpass1").map (· + 1) }] ∧
      (∀ doc, Call.save doc ∈ (changePassword sampleDeps sampleWorld
          (sampleReq "correctOld" "newpass1" "newpass1")).calls →
        doc.id = sampleAccount.id ∧
          doc.password = [115, 97, 108, 116, 10] ++ 36 :: (js "newpass1").map (· + 1)) ∧
      (changePassword sampleDeps sampleWorld
        (sampleReq "correctOld" "newpass1" "newpass1")).world =
        { users :=
            [⟨1, "acc", [115, 97, 108, 116, 10] ++ 36 :: (js "newpass1").map (· + 1)⟩,
             ⟨2, "other", [115, 97, 108, 116, 10] ++ 36 :: (js "hunter22").map (· + 1)⟩],
          sessions := sampleWorld.sessions } :=
  changePassword_success sampleDeps sampleWorld (sampleReq "correctOld" "newpass1" "newpass1")
    sampleAccount [115, 97, 108, 116, 10]
    ([115, 97, 108, 116, 10] ++ 36 :: (js "newpass1").map (· + 1)) _
    (by decide) rfl rfl rfl rfl rfl

/-- C5 fails on the code: account 1 has the sessions 10 and 11; after a
successful rotation both are still there (and the list of sessions is the one
before), so whichever of them performed the rotation, the other one was not
invalidated. -/
theorem changePassword_keeps_other_sessions :
    (changePassword sampleDeps sampleWorld
        (sampleReq "correctOld" "newpass1" "newpass1")).outcome = successResponse ∧
      (changePassword sampleDeps sampleWorld
        (sampleReq "correctOld" "newpass1" "newpass1")).world.sessions =
        [⟨10, 1⟩, ⟨11, 1⟩, ⟨20, 2⟩] ∧
      ∀ performing : Nat, ∃ other ∈ (changePassword sampleDeps sampleWorld
          (sampleReq "correctOld" "newpass1" "newpass1")).world.sessions,
        other.userId = 1 ∧ other.sid ≠ performing := by
  refine ⟨by decide, by decide, ?_⟩
  intro performing
  rw [changePassword_sessions]
  by_cases h : performing = 10
  · exact ⟨⟨11, 1⟩, by simp [sampleWorld], rfl, by simp [h]⟩
  · exact ⟨⟨10, 1⟩, by simp [sampleWorld], rfl, fun h2 => h h2.symm⟩

/-- C5 as the code has it: the handler never touches the session records, so
after a rotation, successful or not, every session of the account is kept,
the one performing the rotation and all others alike. -/
theorem changePassword_keeps_all_sessions (d : Deps) (w : World) (req : Req)
    (session : Session) :
    (session ∈ (changePassword d w req).world.sessions ↔ session ∈ w.sessions) ∧
      (changePassword d w req).world.sessions = w.sessions := by
  rw [changePassword_sessions]
  exact ⟨Iff.rfl, rfl⟩

end Tims.Backend

/-! ## Theorems about `TwoFactorModal` -/

namespace Tims.TwoFactor

/-- The state at mount is coherent. -/
theorem coherent_init (isOpen isEnabled : Bool) : Coherent (init isOpen isEnabled) := by
  simp [Coherent, init]

/-- Every reaction keeps the state coherent. -/
theorem coherent_react (s : State) (e : Event) (h : Coherent s) : Coherent (react s e).1 := by
  obtain ⟨h1, h2, h3⟩ := h
  cases e <;> simp only [react, handleEnable, handleDisable, primaryDisabled, enrollVisible]
    <;> (repeat' split) <;> simp_all [Coherent]

/-- Every sequence of events keeps the state coherent. -/
theorem coherent_run (evs : List Event) (s : State) (h : Coherent s) :
    Coherent (run s evs).1 := by
  induction evs generalizing s with
  | nil => simpa [run] using h
  | cons e es ih => simpa [run] using ih _ (coherent_react s e h)

/-- From a coherent state, one reaction either keeps the step or moves it along
1 → 2 → 3 → 4 → 1, each move by the one event that belongs to it. -/
theorem react_step (s : State) (e : Event) (h : Coherent s) :
    ((react s e).1.step = s.step ∨
      (s.step = 1 ∧ (react s e).1.step = 2 ∧ e = .clickPrimary) ∨
      (s.step = 2 ∧ s.enableLoading = true ∧ (react s e).1.step = 3 ∧
        e = .enableSettled true) ∨
      (s.step = 3 ∧ s.verifyLoading = true ∧ (react s e).1.step = 4 ∧
        e = .verifySettled true) ∨
      (s.step = 4 ∧ (react s e).1.step = 1 ∧ e = .clickPrimary)) ∧
    (Effect.enable2FA ∈ (react s e).2 → s.step = 2 ∧ e = .clickPrimary) ∧
    (∀ code, Effect.verify2FA code ∈ (react s e).2 → s.step = 3 ∧ e = .clickPrimary) ∧
    (Effect.onToggle true ∈ (react s e).2 → s.step = 4 ∧ e = .clickPrimary) := by
  obtain ⟨h1, h2, h3⟩ := h
  cases e <;> simp only [react, handleEnable, handleDisable, primaryDisabled, enrollVisible]
    <;> (repeat' split) <;> simp_all

/-- C6: from a fresh mount at step 1, after any sequence of events (clicks on
the primary button, which run `handleEnable`, mutation outcomes, and all other
events of the component) the step is one of 1, 2, 3, 4, and the next event
either keeps it or moves it by exactly one state: 1 → 2 by `handleEnable`,
2 → 3 only by the success of an enable mutation started at step 2, 3 → 4 only
by the success of a verify mutation started at step 3, and 4 → 1 by
`handleEnable` completing the setup.  `onToggle(true)` is called only at
step 4. -/
theorem enrollment_steps_in_order (isOpen isEnabled : Bool) (evs : List Event) (e : Event) :
    ((reached isOpen isEnabled evs).step = 1 ∨ (reached isOpen isEnabled evs).step = 2 ∨
      (reached isOpen isEnabled evs).step = 3 ∨ (reached isOpen isEnabled evs).step = 4) ∧
    ((react (reached isOpen isEnabled evs) e).1.step = (reached isOpen isEnabled evs).step ∨
      ((reached isOpen isEnabled evs).step = 1 ∧
        (react (reached isOpen isEnabled evs) e).1.step = 2 ∧ e = .clickPrimary) ∨
      ((reached isOpen isEnabled evs).step = 2 ∧
        (reached isOpen isEnabled evs).enableLoading = true ∧
        (react (reached isOpen isEnabled evs) e).1.step = 3 ∧ e = .enableSettled true) ∨
      ((reached isOpen isEnabled evs).step = 3 ∧
        (reached isOpen isEnabled evs).verifyLoading = true ∧
        (react (reached isOpen isEnabled evs) e).1.step = 4 ∧ e = .verifySettled true) ∨
      ((reached isOpen isEnabled evs).step = 4 ∧
        (react (reached isOpen isEnabled evs) e).1.step = 1 ∧ e = .clickPrimary)) ∧
    (Effect.enable2FA ∈ (react (reached isOpen isEnabled evs) e).2 →
      (reached isOpen isEnabled evs).step = 2 ∧ e = .clickPrimary) ∧
    (∀ code, Effect.verify2FA code ∈ (react (reached isOpen isEnabled evs) e).2 →
      (reached isOpen isEnabled evs).step = 3 ∧ e = .clickPrimary) ∧
    (Effect.onToggle true ∈ (react (reached isOpen isEnabled evs) e).2 →
      (reached isOpen isEnabled evs).step = 4 ∧ e = .clickPrimary) := by
  have hc : Coherent (reached isOpen isEnabled evs) :=
    coherent_run evs _ (coherent_init isOpen isEnabled)
  exact ⟨hc.1, react_step _ e hc⟩

/-- The flow can be completed: the four steps are reached in turn and
`onToggle(true)` is called at the end. -/
theorem enrollment_completes :
    (reached true false toVerification).step = 3 ∧
      (reached true false (toVerification ++ [.clickPrimary, .verifySettled true])).step = 4 ∧
      run (init true false)
          (toVerification ++ [.clickPrimary, .verifySettled true, .clickPrimary]) =
        (init true false,
          [.enable2FA, .verify2FA (js "000000"),
            .toastSuccess "Two-factor authentication enabled successfully", .onToggle true,
            .onClose]) := by
  decide

/-- One rejected submission at step 3 leaves the state as it was. -/
theorem invalid_submission_round (s : State) (hvis : enrollVisible s = true)
    (hstep : s.step = 3) (hlen : s.verificationCode.length = 6)
    (he : s.enableLoading = false) (hv : s.verifyLoading = false) :
    (react s .clickPrimary) = ({ s with verifyLoading := true }, [.verify2FA s.verificationCode]) ∧
      (react { s with verifyLoading := true } (.verifySettled false)) =
        (s, [.toastError "Invalid verification code"]) := by
  constructor
  · simp [react, handleEnable, primaryDisabled, hvis, hstep, hlen, he, hv]
  · cases s
    simp_all [react]

/-- C7 fails on the component: starting at step 3 with the code `"000000"`
typed, five submissions that are all rejected leave the flow at step 3 with
the same code and nothing in flight, `onClose` was never called, and the sixth
submission is sent to `verify2FA` like the ones before. -/
theorem five_invalid_codes_stay_pending :
    (reached true false toVerification).step = 3 ∧
      (run (reached true false toVerification) (invalidSubmissions 5)).1 =
        reached true false toVerification ∧
      Effect.onClose ∉ (run (reached true false toVerification) (invalidSubmissions 5)).2 ∧
      (react (run (reached true false toVerification) (invalidSubmissions 5)).1
        .clickPrimary).2 = [.verify2FA (js "000000")] := by
  decide

/-- C7 as the component has it: at step 3 with a 6-character code typed and no
mutation in flight, any number of rejected submissions leaves the state
unchanged (still step 3, same code); each of them was sent to `verify2FA` and
answered by the toast 'Invalid verification code', and the next submission is
again sent to `verify2FA`. -/
theorem invalid_codes_keep_pending (s : State) (n : Nat) (hvis : enrollVisible s = true)
    (hstep : s.step = 3) (hlen : s.verificationCode.length = 6)
    (he : s.enableLoading = false) (hv : s.verifyLoading = false) :
    (run s (invalidSubmissions n)).1 = s ∧
      (run s (invalidSubmissions n)).2 =
        (List.replicate n
          [Effect.verify2FA s.verificationCode,
            Effect.toastError "Invalid verification code"]).flatten ∧
      (react (run s (invalidSubmissions n)).1 .clickPrimary).2 =
        [.verify2FA s.verificationCode] := by
  have hround := invalid_submission_round s hvis hstep hlen he hv
  have hrun : run s (invalidSubmissions n) =
      (s, (List.replicate n
          [Effect.verify2FA s.verificationCode,
            Effect.toastError "Invalid verification code"]).flatten) := by
    induction n with
    | zero => rfl
    | succ k ih =>
      simp only [invalidSubmissions, run, hround.1, hround.2, ih, List.replicate_succ,
        List.flatten_cons]
      rfl
  rw [hrun]
  exact ⟨rfl, rfl, by rw [hround.1]⟩

/-- C7 as the component has it, at the state reached by `toVerification` and
five rejected submissions. -/
theorem invalid_codes_keep_pending_witness :
    (run (reached true false toVerification) (invalidSubmissions 5)).1 =
        reached true false toVerification ∧
      (run (reached true false toVerification) (invalidSubmissions 5)).2 =
        (List.replicate 5
          [Effect.verify2FA (reached true false toVerification).verificationCode,
            Effect.toastError "Invalid verification code"]).flatten ∧
      (react (run (reached true false toVerification) (invalidSubmissions 5)).1
        .clickPrimary).2 = [.verify2FA (reached true false toVerification).verificationCode] :=
  invalid_codes_keep_pending (reached true false toVerification) 5 (by decide) (by decide)
    (by decide) (by decide) (by decide)

/-- Cancel (and the close icon) only calls `onClose`: the state of the
component, its step and typed code included, is left as it is, and `onToggle`
is not called. -/
theorem cancel_only_closes (s : State) :
    (react s .clickCancel).1 = s ∧
      (s.isOpen = true → (react s .clickCancel).2 = [.onClose]) ∧
      ∀ enabled, Effect.onToggle enabled ∉ (react s .clickCancel).2 := by
  cases h : s.isOpen <;> simp [react, h]

/-- A close of an open modal leaves no instance. -/
theorem live_close (s : State) (close : Life) (hopen : s.isOpen = true)
    (hclose : closes close = true) : live (some s) close = (none, []) := by
  cases close with
  | mount o en => simp [closes] at hclose
  | unmount => rfl
  | event e =>
    cases e with
    | parentProps o en =>
      cases o
      · simp [live, hooksOf, hopen]
      · simp [closes] at hclose
    | _ => simp [closes] at hclose

/-- Where there is no instance, the only thing that yields one is a mount, and
it yields the initial state. -/
theorem live_none (l : Life) (s : State) (h : (live none l).1 = some s) :
    s = init s.isOpen s.isEnabled := by
  cases l with
  | mount o en =>
    simp only [live, Option.some.injEq] at h
    subst h
    rfl
  | unmount => simp [live] at h
  | event e => simp [live] at h

/-- C9: Cancel is accepted in every state of an open modal, so at each of the
steps 1, 2, 3: it calls `onClose` and nothing else, in particular not
`onToggle`.  Once the parent has closed the modal in answer, by unmounting it
or by rendering it with `isOpen = false`, no instance and so nothing of the
attempt is left: what happens later is what happens to a modal that was never
opened, the instance that comes next is a fresh one, and a modal mounted open
starts at step 1 with the empty verification code. -/
theorem cancel_discards_attempt (s : State) (close : Life) (later : List Life)
    (isEnabled : Bool) (hopen : s.isOpen = true) (hclose : closes close = true) :
    live (some s) (.event .clickCancel) = (some s, [.onClose]) ∧
      liveRun (some s) [.event .clickCancel, close] = (none, [.onClose]) ∧
      (∀ enabled,
        Effect.onToggle enabled ∉ (liveRun (some s) [.event .clickCancel, close]).2) ∧
      liveRun (some s) (.event .clickCancel :: close :: later) =
        ((liveRun none later).1, .onClose :: (liveRun none later).2) ∧
      (∀ next fresh,
        (live (liveRun (some s) [.event .clickCancel, close]).1 next).1 = some fresh →
          fresh = init fresh.isOpen fresh.isEnabled) ∧
      live none (.mount true isEnabled) = (some (init true isEnabled), []) ∧
      (init true isEnabled).step = 1 ∧ (init true isEnabled).verificationCode = [] := by
  have hcancel : live (some s) (.event .clickCancel) = (some s, [.onClose]) := by
    simp [live, react, hopen]
  have hclosed := live_close s close hopen hclose
  have hrun : liveRun (some s) [.event .clickCancel, close] = (none, [.onClose]) := by
    simp [liveRun, hcancel, hclosed]
  refine ⟨hcancel, hrun, ?_, ?_, ?_, rfl, rfl, rfl⟩
  · intro enabled
    simp [hrun]
  · simp [liveRun, hcancel, hclosed]
  · intro next fresh h
    rw [hrun] at h
    exact live_none next fresh h

/-- The scenario of C9: Cancel at step 3 with the code `"000000"` typed, the
parent unmounts the modal and later mounts it again. -/
theorem cancel_discards_attempt_witness :
    (reached true false toVerification).step = 3 ∧
      liveRun (some (reached true false toVerification))
          [.event .clickCancel, .unmount, .mount true false] =
        (some (init true false), [.onClose]) ∧
      live (some (reached true false toVerification)) (.event .clickCancel) =
        (some (reached true false toVerification), [.onClose]) :=
  ⟨by decide,
    by
      rw [(cancel_discards_attempt (reached true false toVerification) .unmount
        [.mount true false] false (by decide) (by decide)).2.2.2.1]
      decide,
    (cancel_discards_attempt (reached true false toVerification) .unmount
      [.mount true false] false (by decide) (by decide)).1⟩

end Tims.TwoFactor

/-! ## Theorems about `ActiveSessionsModal` -/

namespace Tims.Sessions

/-- A terminate request started by a click on a Logout button carries the id of
the clicked row, that row is not flagged current, and the user confirmed. -/
theorem clickLogout_request (v : View) (i : Nat) (confirmed : Bool) (id : JsId)
    (h : Effect.terminateSession id ∈ clickLogout v i confirmed) :
    confirmed = true ∧ ∃ row, v.rows[i]? = some row ∧ row.id = id ∧ row.current = false := by
  unfold clickLogout at h
  split at h
  · rename_i row hrow
    split at h
    · rename_i hbtn
      cases confirmed
      · simp [handleTerminateSession] at h
      · simp only [handleTerminateSession, if_true, List.mem_singleton,
          Effect.terminateSession.injEq] at h
        simp only [hasLogout, Bool.and_eq_true, Bool.not_eq_true'] at hbtn
        exact ⟨rfl, row, hrow, h.symm, hbtn.1⟩
    · simp at h
  · simp at h

/-- C8: the session-termination path of the modal never issues a terminate
request for the current session.  Its only entry is the Logout button, which
exists only on rows not flagged current: a terminate request issued from the
list carries the id of the clicked row, that row is not flagged current and the
user confirmed; a click on a row flagged current issues nothing; and, session
ids being identity keys (pairwise distinct among the rows on the screen), no
click on any row issues a request for the id of a row flagged current. -/
theorem logout_never_for_current_row (v : View) (i : Nat) (confirmed : Bool) :
    (∀ id, Effect.terminateSession id ∈ clickLogout v i confirmed →
      confirmed = true ∧
        ∃ row, v.rows[i]? = some row ∧ row.id = id ∧ row.current = false) ∧
    (∀ row, v.rows[i]? = some row → row.current = true →
      clickLogout v i confirmed = []) ∧
    ((v.rows.map fun row => row.id).Nodup → ∀ row ∈ v.rows, row.current = true →
      Effect.terminateSession row.id ∉ clickLogout v i confirmed) := by
  refine ⟨fun id h => clickLogout_request v i confirmed id h, ?_, ?_⟩
  · intro row hrow hcur
    simp [clickLogout, hrow, hasLogout, hcur]
  · intro hnodup row hmem hcur hreq
    obtain ⟨-, other, hother, hid, hnot⟩ := clickLogout_request v i confirmed row.id hreq
    have hmem2 : other ∈ v.rows := List.getElem?_mem hother
    have : other = row := List.inj_on_of_nodup_map hnodup hmem2 hmem hid
    rw [this, hcur] at hnot
    exact absurd hnot (by decide)

/-- C8 on the mock list: its ids are distinct, so no click issues a request for
id 1, the row flagged current, while row 1 (id 2) can be logged out. -/
theorem logout_never_for_current_row_witness :
    (∀ i confirmed, Effect.terminateSession (.num 1) ∉ clickLogout (openView none) i confirmed) ∧
      clickLogout (openView none) 1 true = [.terminateSession (.num 2)] :=
  ⟨fun i confirmed =>
      (logout_never_for_current_row (openView none) i confirmed).2.2 (by decide)
        ⟨.num 1, "Windows PC", "Chrome 120.0", "192.168.1.100", "New York, NY, USA",
          "2 minutes ago", true, some "ComputerDesktopIcon"⟩ (by decide) rfl,
    by decide⟩

/-- The render of an open, idle modal whose rows are all renderable. -/
theorem render_renderable (sessions : List Session)
    (hicons : ∀ row ∈ sessions, renderable row = true) :
    render (openView (some sessions)) = .list (displaySessions sessions) := by
  have hall : (displaySessions sessions).all renderable = true := by
    cases sessions with
    | nil => decide
    | cons a l =>
      simp only [displaySessions, List.length_cons, gt_iff_lt, Nat.zero_lt_succ, if_true]
      exact List.all_eq_true.mpr hicons
  simp [render, openView, sessionsOf, hall]

/-- C10 fails on the code: the server list `plainRows` is not empty, but its
row has no `icon`, so the render of the modal throws and no row of the list is
on the screen. -/
theorem plain_rows_not_shown :
    plainRows ≠ [] ∧ displaySessions plainRows = plainRows ∧
      render (openView (some plainRows)) = .renderError ∧
      (openView (some plainRows)).rows = [] := by
  decide

/-- C10 as the code has it: for every server list whose rows each carry an
`icon`, the list on the screen of the open, idle modal is the server's list
when that is non-empty and the three mock sessions when it is empty (or when
no data has arrived), so it is never empty.  The mock sessions have the ids 1,
2, 3 and exactly one of them is flagged current; each of their ids is sent on
by `handleTerminateSession` once confirmed, and the Logout buttons of the two
mock rows not flagged current issue the terminate requests for ids 2 and 3. -/
theorem displaySessions_mock_fallback (sessions : List Session)
    (hicons : ∀ row ∈ sessions, renderable row = true) :
    (sessions ≠ [] → render (openView (some sessions)) = .list sessions) ∧
      render (openView (some [])) = .list mockSessions ∧
      render (openView none) = .list mockSessions ∧
      (openView (some sessions)).rows = displaySessions sessions ∧
      (openView (some sessions)).rows ≠ [] ∧
      (mockSessions.map fun row => row.id) = [.num 1, .num 2, .num 3] ∧
      (mockSessions.filter fun row => row.current).length = 1 ∧
      (∀ row ∈ mockSessions,
        handleTerminateSession true row.id = [.terminateSession row.id]) ∧
      clickLogout (openView (some [])) 0 true = [] ∧
      clickLogout (openView (some [])) 1 true = [.terminateSession (.num 2)] ∧
      clickLogout (openView (some [])) 2 true = [.terminateSession (.num 3)] := by
  have hr := render_renderable sessions hicons
  have hrows : (openView (some sessions)).rows = displaySessions sessions := by
    simp [View.rows, hr]
  refine ⟨?_, by decide, by decide, hrows, ?_, by decide, by decide, by decide, by decide,
    by decide, by decide⟩
  · intro h
    rw [hr]
    cases sessions with
    | nil => exact absurd rfl h
    | cons a l => simp [displaySessions]
  · rw [hrows]
    cases sessions with
    | nil => decide
    | cons a l => simp [displaySessions]

/-- C10 as the code has it, on the server list `iconRows`: it is on the screen
as it came, and its second row can be logged out. -/
theorem displaySessions_mock_fallback_witness :
    render (openView (some iconRows)) = .list iconRows ∧
      (openView (some iconRows)).rows = displaySessions iconRows ∧
      clickLogout (openView (some iconRows)) 1 true = [.terminateSession (.text "s-2")] :=
  ⟨(displaySessions_mock_fallback iconRows (by decide)).1 (by decide),
    (displaySessions_mock_fallback iconRows (by decide)).2.2.2.1, by decide⟩

end Tims.Sessions
